import Mathlib

/-!
Shallow embedding of the analytical core of the Smart Expense Tracker and
Budget Management System (backend/app/chatbot), together with proofs of the
behavioural properties claimed about it.

Conventions of the embedding:
- Python floats are modelled as exact rationals; Python lists of numbers as
  List Rat, oldest element first.
- Python dictionaries returned by the functions are modelled as Lean
  structures holding the fields the properties talk about.
- Division by zero in Rat denotes 0; every place where this matters in a
  proof carries an explicit positivity hypothesis mirroring the guard or the
  precondition of the original code.
- The database and the remote translation service are external
  collaborators: functions that consume their output take that output (or an
  oracle standing for the database) as an argument; everything downstream of
  that point is translated statement by statement from the source.
-/

/-! ## String helpers (Python str.upper / str.lower / substring test) -/

/-- Uppercase a string character by character, as Python str.upper does for
the ASCII SQL keywords involved here. -/
def upperStr (s : String) : String := ⟨s.data.map Char.toUpper⟩

/-- Lowercase a string character by character, as Python str.lower does for
the ASCII cue words involved here. -/
def lowerStr (s : String) : String := ⟨s.data.map Char.toLower⟩

/-- Substring test on character lists: true iff needle occurs contiguously in
hay. Mirrors the semantics of the Python operator: the word in, on strings. -/
def subOf (needle : List Char) : List Char → Bool
  | [] => needle.isEmpty
  | c :: t => needle.isPrefixOf (c :: t) || subOf needle t

/-- String containment: hay contains needle as a substring. -/
def containsSubstr (hay needle : String) : Bool := subOf needle.data hay.data

/-! ## Time-series estimators (src/backend/app/chatbot/forecasting.py) -/

/-- Python slice data[-window:]. For window = 0 Python yields the whole list
(since -0 = 0); for 0 < window it yields the last window elements. -/
def pySliceLast (data : List ℚ) (window : ℕ) : List ℚ :=
  if window = 0 then data else data.drop (data.length - window)

/-- Embeds simple_moving_average (forecasting.py lines 34-39): mean of the
last window points; if the series is shorter than the window, mean of all
points; empty series gives 0. -/
def simple_moving_average (data : List ℚ) (window : ℕ) : ℚ :=
  if data.length < window then
    if data.isEmpty then 0 else data.sum / data.length
  else
    (pySliceLast data window).sum / window

/-- Embeds exponential_smoothing (forecasting.py lines 42-57): seed with the
first point, then fold alpha * value + (1 - alpha) * acc over the rest.
Empty series gives 0; a singleton returns its single point. -/
def exponential_smoothing (data : List ℚ) (alpha : ℚ) : ℚ :=
  match data with
  | [] => 0
  | x :: rest => rest.foldl (fun f v => alpha * v + (1 - alpha) * f) x

/-- Embeds linear_trend_forecast (forecasting.py lines 60-85): ordinary
least-squares fit of value against 0-based index, forecast at index
n + periods_ahead - 1, floored at 0. Series shorter than 2 returns the
single value or 0. -/
def linear_trend_forecast (data : List ℚ) (periods_ahead : ℕ) : ℚ :=
  if data.length < 2 then
    match data with
    | [] => 0
    | x :: _ => x
  else
    let n : ℕ := data.length
    let xs : List ℚ := (List.range n).map (fun i => (i : ℚ))
    let x_mean : ℚ := xs.sum / (n : ℚ)
    let y_mean : ℚ := data.sum / (n : ℚ)
    let numerator : ℚ := ((xs.zip data).map (fun p => (p.1 - x_mean) * (p.2 - y_mean))).sum
    let denominator : ℚ := (xs.map (fun x => (x - x_mean) ^ 2)).sum
    if denominator = 0 then y_mean
    else
      let slope := numerator / denominator
      let intercept := y_mean - slope * x_mean
      max 0 (intercept + slope * ((n : ℚ) + (periods_ahead : ℚ) - 1))

/-- Result record of seasonal_decomposition. -/
structure SeasonalResult where
  trend : ℚ
  seasonal : ℚ
  forecast : ℚ
deriving Repr

/-- Embeds seasonal_decomposition (forecasting.py lines 88-111): with fewer
than 2 * period points it degrades to the plain moving average (default
window 3) with a zero seasonal component; otherwise the trend is the moving
average with window = period, the seasonal component is the mean of the last
period detrended residuals, and the forecast is trend + seasonal floored
at 0. -/
def seasonal_decomposition (data : List ℚ) (period : ℕ) : SeasonalResult :=
  if data.length < period * 2 then
    { trend := simple_moving_average data 3
      seasonal := 0
      forecast := simple_moving_average data 3 }
  else
    let trend := simple_moving_average data period
    let detrended := data.map (fun x => x - trend)
    let seasonal :=
      if period ≤ detrended.length then (pySliceLast detrended period).sum / (period : ℚ)
      else 0
    { trend := trend
      seasonal := seasonal
      forecast := max 0 (trend + seasonal) }

/-! ## Forecast aggregator (forecasting.py lines 114-189) -/

/-- Result record of forecast_next_month, holding the fields the verified
properties talk about (the Python dict also carries a message and the raw
statistics). -/
structure ForecastResult where
  forecast : ℚ
  method : String
  confidence : String
deriving Repr

/-- Embeds the construction of the forecasts dict (forecasting.py lines
145-159) as an association list in insertion order: sma when method is auto
or sma, ema when auto or ema, linear when auto or linear, and seasonal when
(auto or seasonal) and the series has at least 6 points, with period
min 12 (length). -/
def forecast_components (data : List ℚ) (method : String) : List (String × ℚ) :=
  (if method = "auto" ∨ method = "sma" then
    [("sma", simple_moving_average data 3)] else []) ++
  (if method = "auto" ∨ method = "ema" then
    [("ema", exponential_smoothing data (3 / 10))] else []) ++
  (if method = "auto" ∨ method = "linear" then
    [("linear", linear_trend_forecast data 1)] else []) ++
  (if (method = "auto" ∨ method = "seasonal") ∧ 6 ≤ data.length then
    [("seasonal", (seasonal_decomposition data (min 12 data.length)).forecast)] else [])

/-- Embeds the confidence computation (forecasting.py lines 170-180). The
source computes cv = sqrt(variance) / mean when mean > 0 (else cv = 0) and
buckets cv < 0.2 high, cv < 0.5 medium, else low, with variance the
population variance of the series. Since both sides of each comparison are
nonnegative when mean > 0, cv < 1/5 is equivalent to variance * 25 < mean ^ 2
and cv < 1/2 to variance * 4 < mean ^ 2, which is how the test is embedded
over the rationals (avoiding the irrational square root). -/
def confidence_label (data : List ℚ) : String :=
  let n : ℚ := data.length
  let mean := data.sum / n
  let variance := (data.map (fun x => (x - mean) ^ 2)).sum / n
  if 0 < mean then
    if variance * 25 < mean ^ 2 then "high"
    else if variance * 4 < mean ^ 2 then "medium"
    else "low"
  else "high"

/-- Embeds forecast_next_month (forecasting.py lines 114-189) on the series
already fetched from the store: empty series gives the no_data result; fewer
than 3 points gives the plain average; otherwise the requested estimators
are computed, auto mode returns their unweighted mean (method ensemble) and
a named mode returns the dict lookup of the method with default the dict
lookup of sma with default 0, exactly as the source expression
forecasts.get(method, forecasts.get(sma-key, 0)). -/
def forecast_next_month (data : List ℚ) (method : String) : ForecastResult :=
  if data.length = 0 then
    { forecast := 0, method := "no_data", confidence := "low" }
  else if data.length < 3 then
    { forecast := data.sum / (data.length : ℚ), method := "average", confidence := "low" }
  else
    let comps := forecast_components data method
    let fv : ℚ :=
      if method = "auto" then ((comps.map Prod.snd).sum) / (comps.length : ℚ)
      else ((comps.lookup method).getD ((comps.lookup "sma").getD 0))
    { forecast := fv
      method := if method = "auto" then "ensemble" else method
      confidence := confidence_label data }

/-! ## Risk scorer (forecasting.py lines 223-319, per-budget-line part) -/

/-- One budget line together with its spend-to-date, as read from the store
inside the loop of predict_budget_risk. -/
structure BudgetLine where
  spent : ℚ
  amount : ℚ
deriving Repr

/-- Embeds the projection arithmetic of predict_budget_risk (forecasting.py
lines 273-276): daily average is spend / current_day guarded at
current_day = 0, the projected total extends it over the remaining days, and
the projected utilization is the projected total over the budget, in
percent. -/
def projected_utilization (spent budget : ℚ) (current_day days_remaining : ℕ) : ℚ :=
  let daily_avg := if 0 < current_day then spent / (current_day : ℚ) else 0
  let projected_total := spent + daily_avg * (days_remaining : ℚ)
  projected_total / budget * 100

/-- Embeds the risk bucketing of predict_budget_risk (forecasting.py lines
278-288): a step function of projected utilization in percent. -/
def risk_of_utilization (u : ℚ) : ℕ :=
  if 120 < u then 100
  else if 100 < u then 80
  else if 90 < u then 60
  else if 80 < u then 40
  else 20

/-- Embeds the per-line loop of predict_budget_risk (forecasting.py lines
253-290): lines whose budget amount equals 0 are skipped (continue); every
other line contributes the risk score of its projected utilization. -/
def line_risk_scores (lines : List BudgetLine) (current_day days_remaining : ℕ) : List ℕ :=
  lines.filterMap (fun b =>
    if b.amount = 0 then none
    else some (risk_of_utilization
      (projected_utilization b.spent b.amount current_day days_remaining)))

/-! ## Conversation context (src/backend/app/chatbot/context_manager.py) -/

/-- One turn of the conversation log. The source also stores a wall-clock
timestamp, which is external input irrelevant to the verified properties and
omitted here. Entity values are modelled as strings. -/
structure Message where
  role : String
  content : String
  intent : Option String
  entities : List (String × String)
deriving Repr

/-- Embeds the ConversationContext object (context_manager.py lines 7-24).
The deque with maxlen = max_history is modelled as a list plus the explicit
eviction performed in add_message; session_start is external clock input and
is omitted. -/
structure ConversationContext where
  user_id : ℕ
  max_history : ℕ
  messages : List Message
  context_data : List (String × String)
  last_intent : Option String
  last_entities : List (String × String)
deriving Repr

/-- Fresh context as built by the constructor with the default
max_history = 10. -/
def ConversationContext.init (uid : ℕ) : ConversationContext :=
  { user_id := uid, max_history := 10, messages := [], context_data := []
    last_intent := none, last_entities := [] }

/-- Python truthiness of an optional string: None and the empty string are
falsy. -/
def truthyOptStr : Option String → Bool
  | none => false
  | some s => !s.isEmpty

/-- Message record as built in add_message; the Python expression
entities or empty-dict maps a missing or empty mapping to the empty one. -/
def mkMessage (role content : String) (intent : Option String)
    (entities : Option (List (String × String))) : Message :=
  { role := role, content := content, intent := intent, entities := entities.getD [] }

/-- Embeds ConversationContext.add_message (context_manager.py lines 26-47):
append the new message, evict from the front down to max_history (deque
maxlen semantics), and when the role is user and the intent is truthy also
update last_intent and last_entities. -/
def add_message (ctx : ConversationContext) (role content : String)
    (intent : Option String) (entities : Option (List (String × String))) :
    ConversationContext :=
  let appended := ctx.messages ++ [mkMessage role content intent entities]
  let bounded :=
    if ctx.max_history < appended.length then
      appended.drop (appended.length - ctx.max_history)
    else appended
  if role = "user" ∧ truthyOptStr intent then
    { ctx with messages := bounded, last_intent := intent,
               last_entities := entities.getD [] }
  else
    { ctx with messages := bounded }

/-- Embeds ConversationContext.clear_context (context_manager.py lines
74-78): reset context_data, last_intent and last_entities; every other
field, in particular the message log, is untouched. -/
def clear_context (ctx : ConversationContext) : ConversationContext :=
  { ctx with context_data := [], last_intent := none, last_entities := [] }

/-- Embeds the follow_up_patterns table of ConversationContext.is_follow_up
(context_manager.py lines 82-88); dict.get with default empty list. -/
def follow_up_patterns (intent : String) : List String :=
  if intent = "add_transaction" then ["add_transaction", "get_summary"]
  else if intent = "get_summary" then ["add_transaction", "get_details"]
  else if intent = "check_budget" then ["predict_budget", "add_transaction"]
  else if intent = "forecast" then ["get_summary", "advice"]
  else if intent = "nlp_query" then ["nlp_query", "get_details"]
  else []

/-- Embeds ConversationContext.is_follow_up (context_manager.py lines
80-93): false when last_intent is falsy (None or empty), else membership of
the candidate in the pattern row of last_intent. -/
def is_follow_up (ctx : ConversationContext) (current_intent : String) : Bool :=
  match ctx.last_intent with
  | none => false
  | some li => if li.isEmpty then false else decide (current_intent ∈ follow_up_patterns li)

/-- Reference set built by extract_reference: present keys of the Python
references dict. The last_intent key is present exactly when expand_last is
set, so it is carried as an option of the (optional) stored intent. -/
structure References where
  category : Option String
  amount : Option String
  expand_last : Bool
  last_intent_ref : Option (Option String)
deriving Repr

/-- Embeds ConversationContext.extract_reference (context_manager.py lines
95-119): demonstrative cue words copy category and amount from
last_entities; elaboration cue words set expand_last and record
last_intent. -/
def extract_reference (ctx : ConversationContext) (user_input : String) : References :=
  let lower := lowerStr user_input
  let demonstrative :=
    ["that", "this", "it", "same"].any (fun w => containsSubstr lower w)
  let elaboration :=
    ["more", "details", "elaborate", "explain"].any (fun w => containsSubstr lower w)
  { category := if demonstrative then ctx.last_entities.lookup "category" else none
    amount := if demonstrative then ctx.last_entities.lookup "amount" else none
    expand_last := elaboration
    last_intent_ref := if elaboration then some ctx.last_intent else none }

/-- Result record of detect_intent_with_context. -/
structure DetectResult where
  is_follow_up : Bool
  references : References
  last_intent : Option String
  context_data : List (String × String)
deriving Repr

/-- Embeds detect_intent_with_context (context_manager.py lines 225-244):
references come from extract_reference on the current input; the follow-up
flag starts false and, when last_intent is truthy, is set to
is_follow_up applied to last_intent itself (the candidate tested is the
previous intent, not anything derived from the current message). -/
def detect_intent_with_context (user_input : String) (ctx : ConversationContext) :
    DetectResult :=
  let references := extract_reference ctx user_input
  let follow_flag : Bool :=
    match ctx.last_intent with
    | none => false
    | some li => if li.isEmpty then false else is_follow_up ctx li
  { is_follow_up := follow_flag
    references := references
    last_intent := ctx.last_intent
    context_data := ctx.context_data }

/-- One appendTurn operation, for reasoning about arbitrary sequences of
turns. -/
structure TurnOp where
  role : String
  content : String
  intent : Option String
  entities : Option (List (String × String))
deriving Repr

/-- Apply a sequence of appendTurn operations to a context, left to right. -/
def applyTurns (ops : List TurnOp) (ctx : ConversationContext) : ConversationContext :=
  ops.foldl (fun c op => add_message c op.role op.content op.intent op.entities) ctx

/-! ## NLP-to-SQL safety layer (src/backend/app/chatbot/nlp_to_sql.py) -/

/-- Parsed payload of the external translator as consumed by
generate_sql_query after JSON decoding: the generated SQL text, the
explanation and the safe flag (Python result.get of safe with default False
is a total boolean here). -/
structure TranslatorResult where
  sql : String
  explanation : String
  safe : Bool
deriving Repr

/-- The dangerous keyword list of generate_sql_query (nlp_to_sql.py line
129). -/
def dangerous_keywords : List String :=
  ["INSERT", "UPDATE", "DELETE", "DROP", "ALTER", "CREATE", "TRUNCATE", "EXEC"]

/-- Embeds the keyword scan of generate_sql_query (nlp_to_sql.py lines
128-131): any dangerous keyword occurring in the upper-cased SQL text. -/
def is_dangerous (sql : String) : Bool :=
  dangerous_keywords.any (fun kw => containsSubstr (upperStr sql) kw)

/-- Embeds the safety override of generate_sql_query (nlp_to_sql.py lines
127-135): a dangerous SQL text forces safe to false and replaces the
explanation; otherwise the translator result passes through unchanged. -/
def sanitize_sql_result (r : TranslatorResult) : TranslatorResult :=
  if is_dangerous r.sql then
    { r with safe := false,
             explanation := "Query contains potentially dangerous operations" }
  else r

/-- Outcome record of execute_nlp_query, holding the fields the verified
properties talk about. -/
structure NlpOutcome where
  success : Bool
  error : Option String
  query : Option String
deriving Repr

/-- Embeds execute_nlp_query (nlp_to_sql.py lines 144-210) from the point
where the translator result is available. The database is an oracle from SQL
text to either a row count or an error message. The second component of the
result is the list of SQL statements actually handed to the database, so
that non-execution is a provable statement: an unsafe result returns the
failure outcome with the translator explanation and an empty execution
list. -/
def execute_nlp_query (db : String → Except String ℕ) (query_result : TranslatorResult) :
    NlpOutcome × List String :=
  let qr := sanitize_sql_result query_result
  if qr.safe = false then
    ({ success := false, error := some qr.explanation, query := none }, [])
  else
    match db qr.sql with
    | Except.ok _ =>
        ({ success := true, error := none, query := some qr.sql }, [qr.sql])
    | Except.error e =>
        ({ success := false, error := some ("Query execution error: " ++ e),
           query := some qr.sql }, [qr.sql])

/-! ## Helper lemmas -/

/-- Subtracting a constant from every element of a list subtracts
length-times the constant from the sum. -/
lemma sum_map_sub_const (L : List ℚ) (c : ℚ) :
    (L.map (fun x => x - c)).sum = L.sum - L.length * c := by
  induction L with
  | nil => simp
  | cons a t ih =>
    simp only [List.map_cons, List.sum_cons, ih, List.length_cons]
    push_cast
    ring

/-- Minimum of a nonempty list of rationals, seeded at the head as the
Python built-in min would compute it; 0 on the empty list. -/
def listMin : List ℚ → ℚ
  | [] => 0
  | x :: xs => xs.foldl min x

/-- Maximum of a nonempty list of rationals, seeded at the head; 0 on the
empty list. -/
def listMax : List ℚ → ℚ
  | [] => 0
  | x :: xs => xs.foldl max x

lemma foldl_min_bounds (t : List ℚ) : ∀ a : ℚ,
    t.foldl min a ≤ a ∧ ∀ x ∈ t, t.foldl min a ≤ x := by
  induction t with
  | nil => intro a; simp
  | cons b t ih =>
    intro a
    rw [List.foldl_cons]
    refine ⟨le_trans (ih (min a b)).1 (min_le_left a b), ?_⟩
    intro x hx
    rcases List.mem_cons.mp hx with h | h
    · subst h; exact le_trans (ih (min a x)).1 (min_le_right a x)
    · exact (ih (min a b)).2 x h

lemma foldl_max_bounds (t : List ℚ) : ∀ a : ℚ,
    a ≤ t.foldl max a ∧ ∀ x ∈ t, x ≤ t.foldl max a := by
  induction t with
  | nil => intro a; simp
  | cons b t ih =>
    intro a
    rw [List.foldl_cons]
    refine ⟨le_trans (le_max_left a b) (ih (max a b)).1, ?_⟩
    intro x hx
    rcases List.mem_cons.mp hx with h | h
    · subst h; exact le_trans (le_max_right a x) (ih (max a x)).1
    · exact (ih (max a b)).2 x h

lemma listMin_le_of_mem {l : List ℚ} {x : ℚ} (hx : x ∈ l) : listMin l ≤ x := by
  cases l with
  | nil => cases hx
  | cons a t =>
    rcases List.mem_cons.mp hx with h | h
    · exact h ▸ (foldl_min_bounds t a).1
    · exact (foldl_min_bounds t a).2 x h

lemma le_listMax_of_mem {l : List ℚ} {x : ℚ} (hx : x ∈ l) : x ≤ listMax l := by
  cases l with
  | nil => cases hx
  | cons a t =>
    rcases List.mem_cons.mp hx with h | h
    · exact h ▸ (foldl_max_bounds t a).1
    · exact (foldl_max_bounds t a).2 x h

/-- The mean of a nonempty list lies above any lower bound of its
elements. -/
lemma le_mean_of_forall_le {l : List ℚ} (hl : l ≠ []) {b : ℚ}
    (hb : ∀ x ∈ l, b ≤ x) : b ≤ l.sum / (l.length : ℚ) := by
  have hpos : (0 : ℚ) < (l.length : ℚ) := by
    have := List.length_pos.mpr hl
    exact_mod_cast this
  rw [le_div_iff₀ hpos]
  have := List.card_nsmul_le_sum l b hb
  rwa [nsmul_eq_mul, mul_comm] at this

/-- The mean of a nonempty list lies below any upper bound of its
elements. -/
lemma mean_le_of_forall_le {l : List ℚ} (hl : l ≠ []) {b : ℚ}
    (hb : ∀ x ∈ l, x ≤ b) : l.sum / (l.length : ℚ) ≤ b := by
  have hpos : (0 : ℚ) < (l.length : ℚ) := by
    have := List.length_pos.mpr hl
    exact_mod_cast this
  rw [div_le_iff₀ hpos]
  have := List.sum_le_card_nsmul l b hb
  rwa [nsmul_eq_mul, mul_comm] at this

/-! ## Claim theorems -/

/-- C1: in a named mode the aggregator is claimed to return that estimator
value directly and to fall back to the moving average when the named
estimator was not computed, so that mode seasonal on a series of length 3
should return the moving average of the series. The code diverges on the
fallback: with mode seasonal and the 3-point series 1000, 1100, 1050 the
forecasts dict is empty (sma is only inserted in modes auto or sma), the
nested dict lookup falls through to its literal default and the function
returns 0, while the moving average of the series is 1050. -/
theorem C1_seasonal_mode_short_series_returns_zero :
    forecast_next_month [1000, 1100, 1050] "seasonal" =
      { forecast := 0, method := "seasonal", confidence := "high" } ∧
    simple_moving_average [1000, 1100, 1050] 3 = 1050 := by
  constructor
  · norm_num [forecast_next_month, forecast_components, confidence_label]
    decide
  · norm_num [simple_moving_average, pySliceLast]

/-- C3 counterexample: on the series 1000, 1100, 1050 in auto mode the
exponential smoothing value is exactly 1036 (not within 0.5 of the claimed
1034.5), the linear trend value is exactly 1100 (not within 0.5 of the
claimed 1083.3) and the ensemble value is exactly 1062 (not within 0.5 of
the claimed 1055.9). -/
theorem C3_counterexample_scenario_values :
    exponential_smoothing [1000, 1100, 1050] (3 / 10) = 1036 ∧
    ¬ |exponential_smoothing [1000, 1100, 1050] (3 / 10) - 2069 / 2| ≤ 1 / 2 ∧
    linear_trend_forecast [1000, 1100, 1050] 1 = 1100 ∧
    ¬ |linear_trend_forecast [1000, 1100, 1050] 1 - 10833 / 10| ≤ 1 / 2 ∧
    (forecast_next_month [1000, 1100, 1050] "auto").forecast = 1062 ∧
    ¬ |(forecast_next_month [1000, 1100, 1050] "auto").forecast - 10559 / 10| ≤ 1 / 2 := by
  have hema : exponential_smoothing [1000, 1100, 1050] (3 / 10) = 1036 := by
    norm_num [exponential_smoothing]
  have hlin : linear_trend_forecast [1000, 1100, 1050] 1 = 1100 := by
    norm_num [linear_trend_forecast, List.range_succ]
  have hens : (forecast_next_month [1000, 1100, 1050] "auto").forecast = 1062 := by
    norm_num [forecast_next_month, forecast_components, simple_moving_average,
      pySliceLast, exponential_smoothing, linear_trend_forecast, List.range_succ]
  refine ⟨hema, ?_, hlin, ?_, hens, ?_⟩
  · rw [hema]; norm_num [abs_le]
  · rw [hlin]; norm_num [abs_le]
  · rw [hens]; norm_num [abs_le]

/-- C3 amended: for the series 1000, 1100, 1050 in auto mode the aggregator
computes moving average 1050, exponential smoothing (alpha 0.3) exactly
1036, linear trend exactly 1100, runs no seasonal estimator (length below
6), returns the ensemble mean (1050 + 1036 + 1100) / 3 = 1062, and labels
the confidence high from the coefficient of variation of the series. -/
theorem C3_amended_scenario_exact_values :
    forecast_components [1000, 1100, 1050] "auto" =
      [("sma", 1050), ("ema", 1036), ("linear", 1100)] ∧
    forecast_next_month [1000, 1100, 1050] "auto" =
      { forecast := 1062, method := "ensemble", confidence := "high" } := by
  constructor
  · norm_num [forecast_components, simple_moving_average, pySliceLast,
      exponential_smoothing, linear_trend_forecast, List.range_succ]
  · norm_num [forecast_next_month, forecast_components, simple_moving_average,
      pySliceLast, exponential_smoothing, linear_trend_forecast, List.range_succ,
      confidence_label]

/-- C7: on the empty input series the moving average, exponential smoothing,
linear trend and seasonal decomposition estimators all return 0 (for every
window, alpha, horizon and period parameter), and the forecast aggregator
returns the no_data result with confidence low and value 0 for every
requested mode. -/
theorem C7_empty_series_all_zero :
    (∀ w : ℕ, simple_moving_average [] w = 0) ∧
    (∀ a : ℚ, exponential_smoothing [] a = 0) ∧
    (∀ p : ℕ, linear_trend_forecast [] p = 0) ∧
    (∀ per : ℕ, seasonal_decomposition [] per =
      { trend := 0, seasonal := 0, forecast := 0 }) ∧
    (∀ m : String, forecast_next_month [] m =
      { forecast := 0, method := "no_data", confidence := "low" }) := by
  refine ⟨?_, ?_, ?_, ?_, ?_⟩
  · intro w; rcases w with _ | w <;> simp [simple_moving_average, pySliceLast]
  · intro a; rfl
  · intro p; rfl
  · intro per; rcases per with _ | per <;>
      simp [seasonal_decomposition, simple_moving_average, pySliceLast]
  · intro m; simp [forecast_next_month]

/-- C9: clear_context resets context_data to empty, last_intent to none and
last_entities to empty, while the message log (same list, same order) and
the remaining fields are left unchanged. -/
theorem C9_clear_context_frame (ctx : ConversationContext) :
    (clear_context ctx).messages = ctx.messages ∧
    (clear_context ctx).context_data = [] ∧
    (clear_context ctx).last_intent = none ∧
    (clear_context ctx).last_entities = [] ∧
    (clear_context ctx).user_id = ctx.user_id ∧
    (clear_context ctx).max_history = ctx.max_history :=
  ⟨rfl, rfl, rfl, rfl, rfl, rfl⟩

/-- C2: whenever the SQL string produced by the translator contains a
mutating keyword (insert/update/delete/drop/alter/create/truncate/exec,
case-insensitively), execute_nlp_query hands nothing to the database and
returns an unsuccessful outcome carrying the unsafe explanation; and any
translator result whose safe flag is not true is likewise surfaced as a
failure with the (sanitized) explanation, never executed or repaired. -/
theorem C2_unsafe_sql_never_executed :
    (∀ (db : String → Except String ℕ) (r : TranslatorResult),
      is_dangerous r.sql = true →
      (execute_nlp_query db r).1.success = false ∧
      (execute_nlp_query db r).2 = [] ∧
      (execute_nlp_query db r).1.error =
        some "Query contains potentially dangerous operations") ∧
    (∀ (db : String → Except String ℕ) (r : TranslatorResult),
      r.safe = false →
      (execute_nlp_query db r).1.success = false ∧
      (execute_nlp_query db r).2 = [] ∧
      (execute_nlp_query db r).1.error = some (sanitize_sql_result r).explanation) := by
  constructor
  · intro db r h
    simp [execute_nlp_query, sanitize_sql_result, h]
  · intro db r h
    by_cases hd : is_dangerous r.sql
    · simp [execute_nlp_query, sanitize_sql_result, hd]
    · simp [execute_nlp_query, sanitize_sql_result, hd, h]

/-- Database oracle stub used by witnesses: accepts every query. -/
def dbStub : String → Except String ℕ := fun _ => Except.ok 0

/-- Concrete translator result whose SQL contains the keyword DELETE while
its own safe flag is (wrongly) true. -/
def dangerousResult : TranslatorResult :=
  { sql := "DELETE FROM transactions WHERE user_id = 1"
    explanation := "removes rows", safe := true }

/-- Concrete translator result that the translator itself marked unsafe. -/
def unsafeResult : TranslatorResult :=
  { sql := "SELECT amount FROM transactions"
    explanation := "ambiguous request", safe := false }

/-- Witness for C2 at concrete inputs. -/
theorem C2_unsafe_sql_never_executed_witness :
    ((execute_nlp_query dbStub dangerousResult).1.success = false ∧
     (execute_nlp_query dbStub dangerousResult).2 = [] ∧
     (execute_nlp_query dbStub dangerousResult).1.error =
       some "Query contains potentially dangerous operations") ∧
    ((execute_nlp_query dbStub unsafeResult).1.success = false ∧
     (execute_nlp_query dbStub unsafeResult).2 = [] ∧
     (execute_nlp_query dbStub unsafeResult).1.error =
       some (sanitize_sql_result unsafeResult).explanation) :=
  ⟨C2_unsafe_sql_never_executed.1 dbStub dangerousResult (by decide),
   C2_unsafe_sql_never_executed.2 dbStub unsafeResult rfl⟩

/-- C5: for budget lines with positive budget the per-line risk score is a
monotonically non-decreasing step function of projected utilization taking
exactly the bucketed values (above 120 percent 100, above 100 percent 80,
above 90 percent 60, above 80 percent 40, else 20); a line with
spend-to-date 0 always scores 20; and lines with budget amount 0 are skipped
entirely by the scoring loop. -/
theorem C5_risk_step_function :
    (∀ u v : ℚ, u ≤ v → risk_of_utilization u ≤ risk_of_utilization v) ∧
    (∀ u : ℚ,
      (120 < u → risk_of_utilization u = 100) ∧
      (100 < u → u ≤ 120 → risk_of_utilization u = 80) ∧
      (90 < u → u ≤ 100 → risk_of_utilization u = 60) ∧
      (80 < u → u ≤ 90 → risk_of_utilization u = 40) ∧
      (u ≤ 80 → risk_of_utilization u = 20)) ∧
    (∀ (budget : ℚ) (current_day days_remaining : ℕ), 0 < budget →
      risk_of_utilization (projected_utilization 0 budget current_day days_remaining) = 20) ∧
    (∀ (b : BudgetLine) (rest : List BudgetLine) (cd dr : ℕ), b.amount = 0 →
      line_risk_scores (b :: rest) cd dr = line_risk_scores rest cd dr) := by
  refine ⟨?_, ?_, ?_, ?_⟩
  · intro u v huv
    unfold risk_of_utilization
    split_ifs <;> first | omega | (exfalso; linarith)
  · intro u
    refine ⟨?_, ?_, ?_, ?_, ?_⟩ <;> intros <;> unfold risk_of_utilization <;>
      split_ifs <;> first | rfl | (exfalso; linarith)
  · intro budget current_day days_remaining hb
    have hzero : projected_utilization 0 budget current_day days_remaining = 0 := by
      unfold projected_utilization
      split_ifs <;> simp
    rw [hzero]
    norm_num [risk_of_utilization]
  · intro b rest cd dr h
    simp [line_risk_scores, h]

/-- Witness for C5 at concrete inputs. -/
theorem C5_risk_step_function_witness :
    risk_of_utilization 50 ≤ risk_of_utilization 130 ∧
    risk_of_utilization 125 = 100 ∧
    risk_of_utilization (projected_utilization 0 500 10 20) = 20 ∧
    line_risk_scores [{ spent := 300, amount := 0 }] 10 20 =
      line_risk_scores [] 10 20 :=
  ⟨C5_risk_step_function.1 50 130 (by decide),
   (C5_risk_step_function.2.1 125).1 (by decide),
   C5_risk_step_function.2.2.1 500 10 20 (by decide),
   C5_risk_step_function.2.2.2 { spent := 300, amount := 0 } [] 10 20 rfl⟩

/-- The message log produced by add_message, written as a single bounded
append: the new message is appended and the front is dropped down to
max_history. -/
lemma add_message_messages_eq (ctx : ConversationContext) (r c : String)
    (i : Option String) (e : Option (List (String × String))) :
    (add_message ctx r c i e).messages =
      if ctx.max_history < ctx.messages.length + 1 then
        (ctx.messages ++ [mkMessage r c i e]).drop
          (ctx.messages.length + 1 - ctx.max_history)
      else ctx.messages ++ [mkMessage r c i e] := by
  unfold add_message
  simp only [List.length_append, List.length_cons, List.length_nil, zero_add]
  split_ifs <;> rfl

/-- add_message never changes max_history. -/
lemma add_message_max_history (ctx : ConversationContext) (r c : String)
    (i : Option String) (e : Option (List (String × String))) :
    (add_message ctx r c i e).max_history = ctx.max_history := by
  unfold add_message
  split_ifs <;> rfl

/-- add_message preserves the FIFO capacity invariant. -/
lemma add_message_length_le (ctx : ConversationContext) (r c : String)
    (i : Option String) (e : Option (List (String × String)))
    (h : ctx.messages.length ≤ ctx.max_history) :
    (add_message ctx r c i e).messages.length ≤ ctx.max_history := by
  rw [add_message_messages_eq]
  split_ifs with hb
  · rw [List.length_drop]
    simp only [List.length_append, List.length_cons, List.length_nil, zero_add]
    omega
  · have hlen : (ctx.messages ++ [mkMessage r c i e]).length =
        ctx.messages.length + 1 := by simp
    omega

/-- Applying any sequence of turns preserves the capacity invariant and the
capacity itself. -/
lemma applyTurns_invariant (ops : List TurnOp) :
    ∀ ctx : ConversationContext, ctx.messages.length ≤ ctx.max_history →
      (applyTurns ops ctx).messages.length ≤ (applyTurns ops ctx).max_history ∧
      (applyTurns ops ctx).max_history = ctx.max_history := by
  induction ops with
  | nil => intro ctx h; exact ⟨h, rfl⟩
  | cons op t ih =>
    intro ctx h
    have hstep : applyTurns (op :: t) ctx =
        applyTurns t (add_message ctx op.role op.content op.intent op.entities) := rfl
    have h1 := add_message_length_le ctx op.role op.content op.intent op.entities h
    have h2 := add_message_max_history ctx op.role op.content op.intent op.entities
    have hnew : (add_message ctx op.role op.content op.intent op.entities).messages.length ≤
        (add_message ctx op.role op.content op.intent op.entities).max_history := by
      rw [h2]; exact h1
    have hrec := ih (add_message ctx op.role op.content op.intent op.entities) hnew
    rw [hstep]
    exact ⟨hrec.1, hrec.2.trans h2⟩

/-- C6: starting from a fresh context, the message FIFO never holds more
than 10 messages no matter how many appendTurn operations are applied; when
the FIFO is full the oldest message is the one evicted; and is_follow_up
returns false for every candidate intent whenever last_intent is none. -/
theorem C6_fifo_bounded_and_follow_up_guard :
    (∀ (uid : ℕ) (ops : List TurnOp),
      (applyTurns ops (ConversationContext.init uid)).messages.length ≤ 10) ∧
    (∀ (ctx : ConversationContext) (r c : String) (i : Option String)
      (e : Option (List (String × String))),
      ctx.max_history = 10 → ctx.messages.length = 10 →
      (add_message ctx r c i e).messages =
        ctx.messages.drop 1 ++ [mkMessage r c i e]) ∧
    (∀ (ctx : ConversationContext) (ci : String),
      ctx.last_intent = none → is_follow_up ctx ci = false) := by
  refine ⟨?_, ?_, ?_⟩
  · intro uid ops
    have h := applyTurns_invariant ops (ConversationContext.init uid) (by simp [ConversationContext.init])
    have : (applyTurns ops (ConversationContext.init uid)).max_history = 10 := h.2
    rw [this] at h
    exact h.1
  · intro ctx r c i e hmax hlen
    rw [add_message_messages_eq, hmax, hlen, if_pos (by omega : 10 < 10 + 1),
      (rfl : 10 + 1 - 10 = 1)]
    have h1 : (1 : ℕ) ≤ ctx.messages.length := by omega
    exact List.drop_append_of_le_length h1
  · intro ctx ci h
    simp [is_follow_up, h]

/-- Witness for C6 at concrete inputs: twelve appended turns still leave at
most 10 messages, a full log evicts its head, and a fresh context reports no
follow-up. -/
theorem C6_fifo_bounded_witness :
    (applyTurns (List.replicate 12
        { role := "user", content := "hello",
          intent := some "get_summary", entities := none })
      (ConversationContext.init 0)).messages.length ≤ 10 ∧
    (add_message
        { user_id := 0, max_history := 10,
          messages := List.replicate 10 (mkMessage "assistant" "ok" none none),
          context_data := [], last_intent := none, last_entities := [] }
        "user" "hi" (some "forecast") none).messages =
      (List.replicate 10 (mkMessage "assistant" "ok" none none)).drop 1 ++
        [mkMessage "user" "hi" (some "forecast") none] ∧
    is_follow_up (ConversationContext.init 7) "get_summary" = false :=
  ⟨C6_fifo_bounded_and_follow_up_guard.1 0 _,
   C6_fifo_bounded_and_follow_up_guard.2.1 _ "user" "hi" (some "forecast") none rfl
     (by simp),
   C6_fifo_bounded_and_follow_up_guard.2.2 (ConversationContext.init 7)
     "get_summary" rfl⟩

/-- C10: the is_follow_up flag returned by detect_intent_with_context does
not depend on the current user input in any way, and it is true exactly when
last_intent holds an intent that appears in its own row of the follow-up
adjacency table (the candidate tested is the previous intent itself). -/
theorem C10_follow_up_flag_independent_of_input :
    (∀ (input1 input2 : String) (ctx : ConversationContext),
      (detect_intent_with_context input1 ctx).is_follow_up =
        (detect_intent_with_context input2 ctx).is_follow_up) ∧
    (∀ (input : String) (ctx : ConversationContext),
      (detect_intent_with_context input ctx).is_follow_up = true ↔
        ∃ li, ctx.last_intent = some li ∧ li ∈ follow_up_patterns li) := by
  constructor
  · intro input1 input2 ctx
    rfl
  · intro input ctx
    cases hli : ctx.last_intent with
    | none => simp [detect_intent_with_context, hli]
    | some li =>
      simp only [detect_intent_with_context, hli]
      by_cases he : li.isEmpty
      · have h0 : li = "" := (String.isEmpty_iff li).mp he
        subst h0
        have hpat : follow_up_patterns "" = [] := by decide
        simp [is_follow_up, hli, hpat, he]
      · simp [is_follow_up, hli, he, decide_eq_true_eq]

/-- C4: for a series of non-negative values of length at least twice the
(positive) period, seasonal_decomposition yields a seasonal component of
exactly 0 and a forecast exactly equal to the plain moving average with
window = period: the trend is the mean of the last period points, each
detrended residual in the last window sums against that same mean, and the
floor at 0 is inert because the mean of non-negative values is
non-negative. -/
theorem C4_seasonal_equals_moving_average (data : List ℚ) (period : ℕ)
    (hper : 0 < period) (hlen : period * 2 ≤ data.length)
    (hnn : ∀ x ∈ data, 0 ≤ x) :
    (seasonal_decomposition data period).seasonal = 0 ∧
    (seasonal_decomposition data period).forecast =
      simple_moving_average data period := by
  have hple : period ≤ data.length := by omega
  have hnotlt : ¬ data.length < period * 2 := by omega
  have hp0 : period ≠ 0 := hper.ne'
  have hpq : (period : ℚ) ≠ 0 := Nat.cast_ne_zero.mpr hp0
  have hsma : simple_moving_average data period =
      (data.drop (data.length - period)).sum / (period : ℚ) := by
    unfold simple_moving_average pySliceLast
    rw [if_neg (by omega : ¬ data.length < period), if_neg hp0]
  have hdroplen : (data.drop (data.length - period)).length = period := by
    rw [List.length_drop]; omega
  have hsum0 : ((data.drop (data.length - period)).map
      (fun x => x - simple_moving_average data period)).sum = 0 := by
    rw [sum_map_sub_const, hdroplen, hsma]
    field_simp
  have htnn : 0 ≤ simple_moving_average data period := by
    rw [hsma]
    apply div_nonneg
    · exact List.sum_nonneg (fun x hx => hnn x (List.mem_of_mem_drop hx))
    · positivity
  have hsd : seasonal_decomposition data period =
      { trend := simple_moving_average data period,
        seasonal := 0,
        forecast := max 0 (simple_moving_average data period) } := by
    unfold seasonal_decomposition pySliceLast
    simp only [List.length_map, hnotlt, if_false, hple, if_true, hp0,
      ← List.map_drop, hsum0, zero_div, add_zero]
  rw [hsd]
  exact ⟨rfl, max_eq_right htnn⟩

/-- Witness for C4 at the concrete series 1 .. 6 with period 3. -/
theorem C4_seasonal_equals_moving_average_witness :
    (∀ x ∈ ([1, 2, 3, 4, 5, 6] : List ℚ), 0 ≤ x) ∧
    (seasonal_decomposition [1, 2, 3, 4, 5, 6] 3).seasonal = 0 ∧
    (seasonal_decomposition [1, 2, 3, 4, 5, 6] 3).forecast =
      simple_moving_average [1, 2, 3, 4, 5, 6] 3 :=
  ⟨by decide,
   C4_seasonal_equals_moving_average [1, 2, 3, 4, 5, 6] 3 (by decide) (by decide)
     (by decide)⟩

/-- C8: for every series of length at least 3 in auto mode, the ensemble
forecast value lies between the minimum and the maximum of the computed
component estimates, since it is their arithmetic mean. -/
theorem C8_ensemble_within_component_bounds (data : List ℚ)
    (h : 3 ≤ data.length) :
    listMin ((forecast_components data "auto").map Prod.snd) ≤
      (forecast_next_month data "auto").forecast ∧
    (forecast_next_month data "auto").forecast ≤
      listMax ((forecast_components data "auto").map Prod.snd) := by
  have h0 : ¬ data.length = 0 := by omega
  have h3 : ¬ data.length < 3 := by omega
  have hfv : (forecast_next_month data "auto").forecast =
      ((forecast_components data "auto").map Prod.snd).sum /
        ((((forecast_components data "auto").map Prod.snd).length : ℕ) : ℚ) := by
    simp [forecast_next_month, h0, h3]
  have hne : (forecast_components data "auto").map Prod.snd ≠ [] := by
    simp [forecast_components]
  rw [hfv]
  exact ⟨le_mean_of_forall_le hne (fun x hx => listMin_le_of_mem hx),
         mean_le_of_forall_le hne (fun x hx => le_listMax_of_mem hx)⟩

/-- Witness for C8 at the concrete series 1000, 1100, 1050. -/
theorem C8_ensemble_within_component_bounds_witness :
    listMin ((forecast_components [1000, 1100, 1050] "auto").map Prod.snd) ≤
      (forecast_next_month [1000, 1100, 1050] "auto").forecast ∧
    (forecast_next_month [1000, 1100, 1050] "auto").forecast ≤
      listMax ((forecast_components [1000, 1100, 1050] "auto").map Prod.snd) :=
  C8_ensemble_within_component_bounds [1000, 1100, 1050] (by decide)
